import Mathlib

/-!
Shallow embedding of `src/get_data.py` (GTZAN dataset fetcher).

The script is sequential orchestration: try a Kaggle download, on a
recoverable failure (`RuntimeError`) fall back to a Hugging Face download,
then fetch three index files over HTTP; normalise the on-disk layout in
between.  We model:

  * the Python exception hierarchy relevant to the script (`Exc`), with
    `isExceptionClass` recording which constructors correspond to
    subclasses of Python's `Exception` (`KeyboardInterrupt` and
    `SystemExit` derive from `BaseException` only, so `except Exception`
    does not catch them);
  * the destination directory's relevant contents as a record of flags
    (`FS`): presence of `genres/`, `Data/`, `Data/genres_original`,
    the nested `data/genres.tar.gz`, the root-level archive, and the three
    index files (as `Option Nat` carrying an abstract body so overwriting
    is observable);
  * the outcomes of the external collaborators (Kaggle client, Hugging
    Face client, HTTP GETs, tar extraction) as an `Env` record — the
    script's own control flow is translated from the source, the
    collaborators' outcomes are free parameters;
  * each Python function as a state-passing function
    `Env → FS → FS × List Event × Option Exc`: the returned `FS` is the
    directory state when the function returns or raises (Python state
    changes persist across exceptions), the `List Event` records which
    download attempts were started (mirroring the `logging.info`
    "Attempting …" lines), and the `Option Exc` is `none` for a normal
    return and `some e` when exception `e` propagates out.

`sys.exit n` is modelled as raising `Exc.systemExit n`; in `main` every
path ends in `systemExit 0` or `systemExit 1` unless a non-`RuntimeError`
exception propagates.
-/

namespace GetData

/-- Exceptions that can propagate between the script's functions.
`apiException` is `kaggle.rest.ApiException`; `httpError` and
`connectionError` come from `requests.exceptions`; `fileNotFoundError`
is the `OSError` raised by `tarfile.open` on a missing path; `tarError`
is `tarfile.TarError`; `runtimeError` is the script's own recoverable
signal; `systemExit code` is the effect of `sys.exit(code)`. -/
inductive Exc where
  | apiException
  | httpError
  | connectionError
  | keyboardInterrupt
  | fileNotFoundError
  | tarError
  | runtimeError
  | otherError
  | systemExit (code : Nat)
deriving DecidableEq

/-- Whether the exception is an instance of Python's `Exception` class,
i.e. is caught by a bare `except Exception` clause.  `KeyboardInterrupt`
and `SystemExit` derive only from `BaseException`. -/
def isExceptionClass : Exc → Bool
  | .keyboardInterrupt => false
  | .systemExit _ => false
  | _ => true

/-- The relevant contents of the destination directory.  The three index
files carry an abstract body (`Option Nat`): `none` means the file is
absent, `some b` that it exists with content `b`. -/
structure FS where
  genres : Bool := false
  dataGenresOriginal : Bool := false
  dataDir : Bool := false
  nestedArchive : Bool := false
  rootArchive : Bool := false
  idxTrain : Option Nat := none
  idxValid : Option Nat := none
  idxTest : Option Nat := none
deriving DecidableEq

/-- A fresh destination directory: nothing downloaded yet. -/
def FS.empty : FS := {}

/-- Observable attempt events, mirroring the script's per-attempt log
lines.  `indexAttempt i` is the HTTP GET for the `i`-th entry of the
fixed URL list. -/
inductive Event where
  | kaggleAttempt
  | hfAttempt
  | indexAttempt (i : Nat)
deriving DecidableEq

/-- Outcomes of the external collaborators.  A `none` outcome means the
library call returns normally; `some e` means it raises `e`.
`indexOutcome round i` is the outcome of the GET for URL `i` during the
`round`-th invocation of `download_index_files` (`round 0` follows the
Kaggle attempt, `round 1` the Hugging Face attempt — a transient network
failure may resolve between rounds), and `indexBody round i` the
response body on success.  `kaggleDepositsTree` says whether the
successful unzipped Kaggle download leaves `Data/genres_original` in the
destination; `tarValid` whether the root-level archive opens and
extracts as a gzip tar; `tarExtractsGenres` whether that extraction
deposits a `genres` directory. -/
structure Env where
  kaggleOutcome : Option Exc
  kaggleDepositsTree : Bool
  hfOutcome : Option Exc
  tarValid : Bool
  tarExtractsGenres : Bool
  indexOutcome : Nat → Nat → Option Exc
  indexBody : Nat → Nat → Nat

/-- The fixed index-file URL list (`ADDITIONAL_FILES` in the source).
Position `i` in this list is the URL that `Event.indexAttempt i` and
`Env.indexOutcome _ i` refer to; `basename` of entry 0/1/2 is
`train_filtered.txt` / `valid_filtered.txt` / `test_filtered.txt`. -/
def ADDITIONAL_FILES : List String :=
  ["https://raw.githubusercontent.com/coreyker/dnn-mgr/master/gtzan/train_filtered.txt",
   "https://raw.githubusercontent.com/coreyker/dnn-mgr/master/gtzan/valid_filtered.txt",
   "https://raw.githubusercontent.com/coreyker/dnn-mgr/master/gtzan/test_filtered.txt"]

/-- Writes `<destination>/<basename(url_u)>`: `open(filename, 'wb')`
followed by `f.write(response.content)`. -/
def setIdx (u : Nat) (body : Nat) (fs : FS) : FS :=
  if u = 0 then { fs with idxTrain := some body }
  else if u = 1 then { fs with idxValid := some body }
  else if u = 2 then { fs with idxTest := some body }
  else fs

/-- Reads the index-file slot for URL `u`. -/
def getIdx (u : Nat) (fs : FS) : Option Nat :=
  if u = 0 then fs.idxTrain
  else if u = 1 then fs.idxValid
  else if u = 2 then fs.idxTest
  else none

/-- Lines 49-61: `move_and_cleanup_kaggle_download`.  If
`Data/genres_original` exists it is moved to `genres`; if `Data` exists
it is removed recursively (taking anything still under it along). -/
def move_and_cleanup_kaggle_download (fs : FS) : FS :=
  let fs1 :=
    if fs.dataGenresOriginal then
      { fs with dataGenresOriginal := false, genres := true }
    else fs
  if fs1.dataDir then { fs1 with dataDir := false, dataGenresOriginal := false }
  else fs1

/-- Lines 39-47: the `except` clauses of `download_from_kaggle`, applied
to an exception raised inside its `try` block, in source order:
`ApiException` is re-raised as `RuntimeError`; `KeyboardInterrupt`
becomes `sys.exit(1)`; any other `Exception` is re-raised as
`RuntimeError`; anything else (only `SystemExit` here) propagates. -/
def kaggleHandler (e : Exc) : Exc :=
  match e with
  | .apiException => .runtimeError
  | .keyboardInterrupt => .systemExit 1
  | e => if isExceptionClass e then .runtimeError else e

/-- Lines 29-47: `download_from_kaggle`.  On a successful
`dataset_download_files` call the unzipped tree appears (per
`Env.kaggleDepositsTree`) and `move_and_cleanup_kaggle_download` runs;
an exception from the download goes through `kaggleHandler`. -/
def download_from_kaggle (env : Env) (fs : FS) : FS × List Event × Option Exc :=
  match env.kaggleOutcome with
  | some e => (fs, [Event.kaggleAttempt], some (kaggleHandler e))
  | none =>
    let fs1 :=
      if env.kaggleDepositsTree then
        { fs with dataDir := true, dataGenresOriginal := true }
      else fs
    (move_and_cleanup_kaggle_download fs1, [Event.kaggleAttempt], none)

/-- Lines 90-109: `move_and_extract_hf_download`.  Moves the nested
`data/<filename>` archive to the destination root when present, then
unconditionally opens `<destination>/<filename>` as a gzip tar: a
missing file raises `FileNotFoundError` (not a `TarError`, hence not
caught here); a `TarError` from open/extract is caught and re-raised as
`RuntimeError`, leaving the archive in place; on success the archive is
deleted after extraction. -/
def move_and_extract_hf_download (env : Env) (fs : FS) : FS × Option Exc :=
  let fs1 :=
    if fs.nestedArchive then
      { fs with nestedArchive := false, rootArchive := true }
    else fs
  if fs1.rootArchive = false then
    (fs1, some Exc.fileNotFoundError)
  else if env.tarValid = false then
    (fs1, some Exc.runtimeError)
  else
    let fs2 := if env.tarExtractsGenres then { fs1 with genres := true } else fs1
    ({ fs2 with rootArchive := false }, none)

/-- Lines 77-88: the `except` clauses of `download_from_huggingface`, in
source order: `HTTPError` and `ConnectionError` are re-raised as
`RuntimeError`; `KeyboardInterrupt` becomes `sys.exit(1)`; any other
`Exception` is re-raised as `RuntimeError`; `SystemExit` propagates. -/
def hfHandler (e : Exc) : Exc :=
  match e with
  | .httpError => .runtimeError
  | .connectionError => .runtimeError
  | .keyboardInterrupt => .systemExit 1
  | e => if isExceptionClass e then .runtimeError else e

/-- Lines 63-88: `download_from_huggingface`.  A successful
`hf_hub_download` leaves the archive at the nested `data/<filename>`
path, then `move_and_extract_hf_download` runs inside the same `try`
block, so its exceptions go through the same handler. -/
def download_from_huggingface (env : Env) (fs : FS) : FS × List Event × Option Exc :=
  match env.hfOutcome with
  | some e => (fs, [Event.hfAttempt], some (hfHandler e))
  | none =>
    let fs1 := { fs with nestedArchive := true }
    match move_and_extract_hf_download env fs1 with
    | (fs2, none) => (fs2, [Event.hfAttempt], none)
    | (fs2, some e) => (fs2, [Event.hfAttempt], some (hfHandler e))

/-- Lines 123-134: the `except` clauses of the per-URL `try` in
`download_index_files`, in source order: `HTTPError` (from
`raise_for_status` on a non-2xx response) and `ConnectionError` are
re-raised as `RuntimeError`; `KeyboardInterrupt` becomes `sys.exit(1)`;
any other `Exception` is re-raised as `RuntimeError`. -/
def indexHandler (e : Exc) : Exc :=
  match e with
  | .httpError => .runtimeError
  | .connectionError => .runtimeError
  | .keyboardInterrupt => .systemExit 1
  | e => if isExceptionClass e then .runtimeError else e

/-- Lines 115-134: the `for url in index_files` loop.  Each URL is
fetched in order; on success the response body is written to the URL's
file and the loop continues; the first exception ends the loop at once
(the `raise` inside the `except` clause leaves the `for` statement). -/
def index_loop (env : Env) (round : Nat) : List Nat → FS → FS × List Event × Option Exc
  | [], fs => (fs, [], none)
  | u :: rest, fs =>
    match env.indexOutcome round u with
    | none =>
      let fs1 := setIdx u (env.indexBody round u) fs
      let r := index_loop env round rest fs1
      (r.1, Event.indexAttempt u :: r.2.1, r.2.2)
    | some e => (fs, [Event.indexAttempt u], some (indexHandler e))

/-- Lines 111-134: `download_index_files`, iterating over the three URLs
of `ADDITIONAL_FILES` (by position). -/
def download_index_files (env : Env) (round : Nat) (fs : FS) :
    FS × List Event × Option Exc :=
  index_loop env round [0, 1, 2] fs

/-- Lines 158-172: the second half of `main` — the Hugging Face attempt
inside `try … except RuntimeError`, followed by `sys.exit(1)` when that
attempt fails recoverably.  `sys.exit(0)` after a full success is the
`systemExit 0` outcome. -/
def mainSecondTry (env : Env) (fs : FS) : FS × List Event × Option Exc :=
  let r1 := download_from_huggingface env fs
  match r1.2.2 with
  | none =>
    let r2 := download_index_files env 1 r1.1
    match r2.2.2 with
    | none => (r2.1, r1.2.1 ++ r2.2.1, some (Exc.systemExit 0))
    | some Exc.runtimeError => (r2.1, r1.2.1 ++ r2.2.1, some (Exc.systemExit 1))
    | some e => (r2.1, r1.2.1 ++ r2.2.1, some e)
  | some Exc.runtimeError => (r1.1, r1.2.1, some (Exc.systemExit 1))
  | some e => (r1.1, r1.2.1, some e)

/-- Lines 136-172: `main`.  The Kaggle attempt and the following
`download_index_files` call share one `try … except RuntimeError`
block, so a `RuntimeError` from either falls through to the Hugging
Face attempt; `sys.exit(0)` ends the run on success.  Exceptions other
than `RuntimeError` (in particular the `SystemExit` raised by
`sys.exit`) propagate out of both `try` blocks. -/
def main (env : Env) (fs : FS) : FS × List Event × Option Exc :=
  let r1 := download_from_kaggle env fs
  match r1.2.2 with
  | none =>
    let r2 := download_index_files env 0 r1.1
    match r2.2.2 with
    | none => (r2.1, r1.2.1 ++ r2.2.1, some (Exc.systemExit 0))
    | some Exc.runtimeError =>
      let r3 := mainSecondTry env r2.1
      (r3.1, r1.2.1 ++ r2.2.1 ++ r3.2.1, r3.2.2)
    | some e => (r2.1, r1.2.1 ++ r2.2.1, some e)
  | some Exc.runtimeError =>
    let r3 := mainSecondTry env r1.1
    (r3.1, r1.2.1 ++ r3.2.1, r3.2.2)
  | some e => (r1.1, r1.2.1, some e)

/-- A convenient fully-successful environment for concrete runs:
both downloads succeed, the archive is valid, every GET returns 2xx. -/
def envBase : Env :=
  { kaggleOutcome := none
    kaggleDepositsTree := true
    hfOutcome := none
    tarValid := true
    tarExtractsGenres := true
    indexOutcome := fun _ _ => none
    indexBody := fun _ _ => 0 }

/-- The exception `download_from_kaggle` propagates, as a function of
the environment alone (the filesystem state does not influence it). -/
def kaggleStageExc (env : Env) : Option Exc :=
  match env.kaggleOutcome with
  | some e => some (kaggleHandler e)
  | none => none

theorem download_from_kaggle_exc (env : Env) (fs : FS) :
    (download_from_kaggle env fs).2.2 = kaggleStageExc env := by
  cases h : env.kaggleOutcome <;> simp [download_from_kaggle, kaggleStageExc, h]

theorem download_from_kaggle_events (env : Env) (fs : FS) :
    (download_from_kaggle env fs).2.1 = [Event.kaggleAttempt] := by
  cases h : env.kaggleOutcome <;> simp [download_from_kaggle, h]

/-- Closed form of `download_from_huggingface`: on success the nested
archive is moved to the root and extracted (deleting it) — or, when the
tar is invalid, left at the root with the recoverable error; a download
failure goes through the handler with the directory untouched. -/
theorem download_from_huggingface_eq (env : Env) (fs : FS) :
    download_from_huggingface env fs =
      match env.hfOutcome with
      | some e => (fs, [Event.hfAttempt], some (hfHandler e))
      | none =>
        if env.tarValid then
          ({ fs with
             nestedArchive := false
             rootArchive := false
             genres := (if env.tarExtractsGenres then true else fs.genres) },
           [Event.hfAttempt], none)
        else
          ({ fs with nestedArchive := false, rootArchive := true },
           [Event.hfAttempt], some Exc.runtimeError) := by
  cases ho : env.hfOutcome <;> cases hv : env.tarValid <;>
    cases hg : env.tarExtractsGenres <;>
      simp [download_from_huggingface, move_and_extract_hf_download,
        hfHandler, isExceptionClass, ho, hv, hg]

/-- The exception `download_from_huggingface` propagates, as a function
of the environment alone. -/
def hfStageExc (env : Env) : Option Exc :=
  match env.hfOutcome with
  | some e => some (hfHandler e)
  | none => if env.tarValid then none else some Exc.runtimeError

theorem download_from_huggingface_exc (env : Env) (fs : FS) :
    (download_from_huggingface env fs).2.2 = hfStageExc env := by
  cases ho : env.hfOutcome <;> cases hv : env.tarValid <;>
    simp [download_from_huggingface_eq, hfStageExc, ho, hv]

theorem download_from_huggingface_events (env : Env) (fs : FS) :
    (download_from_huggingface env fs).2.1 = [Event.hfAttempt] := by
  cases ho : env.hfOutcome <;> cases hv : env.tarValid <;>
    simp [download_from_huggingface_eq, ho, hv]

/-- The exception the index-file loop propagates over a given URL list:
the handler's image of the first failing GET.  Independent of the
filesystem state. -/
def indexExcAux (env : Env) (round : Nat) : List Nat → Option Exc
  | [] => none
  | u :: rest =>
    match env.indexOutcome round u with
    | none => indexExcAux env round rest
    | some e => some (indexHandler e)

/-- The exception `download_index_files` propagates in a given round. -/
def indexExc (env : Env) (round : Nat) : Option Exc :=
  indexExcAux env round [0, 1, 2]

theorem index_loop_exc (env : Env) (round : Nat) (urls : List Nat) (fs : FS) :
    (index_loop env round urls fs).2.2 = indexExcAux env round urls := by
  induction urls generalizing fs with
  | nil => rfl
  | cons u rest ih =>
    cases h : env.indexOutcome round u <;>
      simp [index_loop, indexExcAux, h, ih]

theorem download_index_files_exc (env : Env) (round : Nat) (fs : FS) :
    (download_index_files env round fs).2.2 = indexExc env round :=
  index_loop_exc env round [0, 1, 2] fs

/-- The Hugging Face attempt event is always logged when the second
`try` block of `main` runs. -/
theorem mainSecondTry_events_mem (env : Env) (fs : FS) :
    Event.hfAttempt ∈ (mainSecondTry env fs).2.1 := by
  have hev := download_from_huggingface_events env fs
  simp only [mainSecondTry]
  split
  · split <;> simp [hev]
  · simp [hev]
  · simp [hev]

/-- When the Hugging Face stage fails recoverably, the second `try`
block ends in `sys.exit(1)`. -/
theorem mainSecondTry_exit1 (env : Env) (fs : FS)
    (h : hfStageExc env = some Exc.runtimeError) :
    (mainSecondTry env fs).2.2 = some (Exc.systemExit 1) := by
  have hx := download_from_huggingface_exc env fs
  rw [h] at hx
  simp [mainSecondTry, hx]

/-- When the Hugging Face stage succeeds and the second index round
succeeds, the second `try` block ends in `sys.exit(0)`. -/
theorem mainSecondTry_exit0 (env : Env) (fs : FS)
    (h1 : hfStageExc env = none) (h2 : indexExc env 1 = none) :
    (mainSecondTry env fs).2.2 = some (Exc.systemExit 0) := by
  have hx := download_from_huggingface_exc env fs
  rw [h1] at hx
  have hi := download_index_files_exc env 1 (download_from_huggingface env fs).1
  rw [h2] at hi
  simp [mainSecondTry, hx, hi]

/-- When the Hugging Face stage succeeds but the second index round
fails recoverably, the second `try` block ends in `sys.exit(1)`. -/
theorem mainSecondTry_exit1_index (env : Env) (fs : FS)
    (h1 : hfStageExc env = none) (h2 : indexExc env 1 = some Exc.runtimeError) :
    (mainSecondTry env fs).2.2 = some (Exc.systemExit 1) := by
  have hx := download_from_huggingface_exc env fs
  rw [h1] at hx
  have hi := download_index_files_exc env 1 (download_from_huggingface env fs).1
  rw [h2] at hi
  simp [mainSecondTry, hx, hi]

/-- An `Exception`-class error is always converted to `RuntimeError` by
the Kaggle adapter's `except` clauses. -/
theorem kaggleHandler_exceptionClass (e : Exc) (h : isExceptionClass e = true) :
    kaggleHandler e = Exc.runtimeError := by
  cases e <;> simp_all [kaggleHandler, isExceptionClass]

/-- An `Exception`-class error is always converted to `RuntimeError` by
the Hugging Face adapter's `except` clauses. -/
theorem hfHandler_exceptionClass (e : Exc) (h : isExceptionClass e = true) :
    hfHandler e = Exc.runtimeError := by
  cases e <;> simp_all [hfHandler, isExceptionClass]

/-- When the Kaggle stage fails recoverably, `main` falls into its
second `try` block. -/
theorem main_kaggle_fail_second (env : Env) (fs : FS)
    (h : kaggleStageExc env = some Exc.runtimeError) :
    main env fs =
      ((mainSecondTry env (download_from_kaggle env fs).1).1,
       (download_from_kaggle env fs).2.1 ++
         (mainSecondTry env (download_from_kaggle env fs).1).2.1,
       (mainSecondTry env (download_from_kaggle env fs).1).2.2) := by
  have hx := download_from_kaggle_exc env fs
  rw [h] at hx
  simp [main, hx]

/-! Basic facts about the layout normaliser and the extractor. -/

/-- C5: the Layout Normalizer is idempotent — a second invocation of
`move_and_cleanup_kaggle_download` (by then `Data/genres_original` and
`Data` are gone, so both `os.path.exists` guards fail) changes nothing
and signals no error. -/
theorem c5_normalizer_idempotent (fs : FS) :
    move_and_cleanup_kaggle_download (move_and_cleanup_kaggle_download fs) =
      move_and_cleanup_kaggle_download fs := by
  cases h1 : fs.dataGenresOriginal <;> cases h2 : fs.dataDir <;>
    simp [move_and_cleanup_kaggle_download, h1, h2]

/-- C9: the `Data` directory is removed whenever it exists, whether or
not `Data/genres_original` existed — when it does not, the only change
is the recursive deletion of `Data`. -/
theorem c9_data_dir_removed_unconditionally (fs : FS)
    (hdata : fs.dataDir = true) (hsrc : fs.dataGenresOriginal = false) :
    move_and_cleanup_kaggle_download fs = { fs with dataDir := false } := by
  simp [move_and_cleanup_kaggle_download, hdata, hsrc]

/-- Witness for `c9_data_dir_removed_unconditionally` at a directory
holding only `Data`. -/
theorem c9_data_dir_removed_unconditionally_witness :
    move_and_cleanup_kaggle_download { FS.empty with dataDir := true } =
      { FS.empty with dataDir := false } :=
  c9_data_dir_removed_unconditionally { FS.empty with dataDir := true } rfl rfl

/-- C4: in `move_and_extract_hf_download`, when an archive is present
(nested or already at the root), extraction success deletes the
root-level archive and returns normally, while an extraction failure
(`TarError`, here `Env.tarValid = false`) signals the recoverable
`RuntimeError` and leaves the archive file in place — the deletion at
line 105 is reached only after `extractall` completes. -/
theorem c4_archive_deleted_only_after_extraction (env : Env) (fs : FS)
    (harch : fs.nestedArchive = true ∨ fs.rootArchive = true) :
    (env.tarValid = true →
      (move_and_extract_hf_download env fs).2 = none ∧
      ((move_and_extract_hf_download env fs).1).rootArchive = false) ∧
    (env.tarValid = false →
      (move_and_extract_hf_download env fs).2 = some Exc.runtimeError ∧
      ((move_and_extract_hf_download env fs).1).rootArchive = true) := by
  rcases harch with h | h <;> cases hn : fs.nestedArchive <;>
    cases hg : env.tarExtractsGenres <;>
      simp_all [move_and_extract_hf_download]

/-- Witness for `c4_archive_deleted_only_after_extraction`: a nested
archive with an invalid tar is kept; with a valid tar it is deleted. -/
theorem c4_archive_deleted_only_after_extraction_witness :
    (move_and_extract_hf_download
        ⟨none, true, none, false, true, fun _ _ => none, fun _ _ => 0⟩
        { FS.empty with nestedArchive := true }).2 = some Exc.runtimeError ∧
    ((move_and_extract_hf_download
        ⟨none, true, none, false, true, fun _ _ => none, fun _ _ => 0⟩
        { FS.empty with nestedArchive := true }).1).rootArchive = true ∧
    (move_and_extract_hf_download
        ⟨none, true, none, true, true, fun _ _ => none, fun _ _ => 0⟩
        { FS.empty with nestedArchive := true }).2 = none := by
  refine ⟨?_, ?_, ?_⟩
  · exact ((c4_archive_deleted_only_after_extraction
      ⟨none, true, none, false, true, fun _ _ => none, fun _ _ => 0⟩
      { FS.empty with nestedArchive := true } (Or.inl rfl)).2 rfl).1
  · exact ((c4_archive_deleted_only_after_extraction
      ⟨none, true, none, false, true, fun _ _ => none, fun _ _ => 0⟩
      { FS.empty with nestedArchive := true } (Or.inl rfl)).2 rfl).2
  · exact ((c4_archive_deleted_only_after_extraction
      ⟨none, true, none, true, true, fun _ _ => none, fun _ _ => 0⟩
      { FS.empty with nestedArchive := true } (Or.inl rfl)).1 rfl).1

/-- C10: when the archive exists at neither the nested `data/` path nor
the destination root, `move_and_extract_hf_download` fails with
`FileNotFoundError` — not with the `RuntimeError` its own
`except tarfile.TarError` branch produces — and the generic
`except Exception` clause of `download_from_huggingface` (which does
catch it, since `FileNotFoundError` is an `Exception` subclass)
converts it into the recoverable `RuntimeError`. -/
theorem c10_missing_archive_not_a_tar_error (env : Env) (fs : FS)
    (hn : fs.nestedArchive = false) (hr : fs.rootArchive = false) :
    (move_and_extract_hf_download env fs).2 = some Exc.fileNotFoundError ∧
    (move_and_extract_hf_download env fs).2 ≠ some Exc.runtimeError ∧
    (move_and_extract_hf_download env fs).1 = fs ∧
    isExceptionClass Exc.fileNotFoundError = true ∧
    hfHandler Exc.fileNotFoundError = Exc.runtimeError := by
  simp [move_and_extract_hf_download, hn, hr, hfHandler, isExceptionClass]

/-- Witness for `c10_missing_archive_not_a_tar_error` on an empty
destination directory. -/
theorem c10_missing_archive_not_a_tar_error_witness :
    (move_and_extract_hf_download
        ⟨none, true, none, true, true, fun _ _ => none, fun _ _ => 0⟩
        FS.empty).2 = some Exc.fileNotFoundError ∧
    hfHandler Exc.fileNotFoundError = Exc.runtimeError := by
  refine ⟨?_, ?_⟩
  · exact (c10_missing_archive_not_a_tar_error
      ⟨none, true, none, true, true, fun _ _ => none, fun _ _ => 0⟩
      FS.empty rfl rfl).1
  · exact (c10_missing_archive_not_a_tar_error
      ⟨none, true, none, true, true, fun _ _ => none, fun _ _ => 0⟩
      FS.empty rfl rfl).2.2.2.2

/-- C2: any `Exception`-class error from the Kaggle download (the
`ApiException` clause or the catch-all `except Exception`) is converted
to the recoverable `RuntimeError`; `main` then attempts the Hugging
Face source, and if that stage also fails recoverably the run exits
with code 1. -/
theorem c2_kaggle_failure_falls_back (env : Env) (fs : FS) (e : Exc)
    (hk : env.kaggleOutcome = some e) (he : isExceptionClass e = true) :
    (download_from_kaggle env fs).2.2 = some Exc.runtimeError ∧
    Event.hfAttempt ∈ (main env fs).2.1 ∧
    (hfStageExc env = some Exc.runtimeError →
      (main env fs).2.2 = some (Exc.systemExit 1)) := by
  have hks : kaggleStageExc env = some Exc.runtimeError := by
    simp [kaggleStageExc, hk, kaggleHandler_exceptionClass e he]
  have hmain := main_kaggle_fail_second env fs hks
  refine ⟨?_, ?_, ?_⟩
  · rw [download_from_kaggle_exc, hks]
  · rw [hmain]
    exact List.mem_append.mpr
      (Or.inr (mainSecondTry_events_mem env (download_from_kaggle env fs).1))
  · intro hhf
    rw [hmain]
    exact mainSecondTry_exit1 env (download_from_kaggle env fs).1 hhf

/-- Environment for the `c2` witness: the Kaggle client raises
`ApiException`, the Hugging Face client a `ConnectionError`. -/
def envC2 : Env :=
  { envBase with
    kaggleOutcome := some Exc.apiException
    hfOutcome := some Exc.connectionError }

/-- Witness for `c2_kaggle_failure_falls_back`: Kaggle raises
`ApiException`, Hugging Face raises `ConnectionError`; the run tries
both and exits 1. -/
theorem c2_kaggle_failure_falls_back_witness :
    (download_from_kaggle envC2 FS.empty).2.2 = some Exc.runtimeError ∧
    Event.hfAttempt ∈ (main envC2 FS.empty).2.1 ∧
    (main envC2 FS.empty).2.2 = some (Exc.systemExit 1) := by
  obtain ⟨h1, h2, h3⟩ :=
    c2_kaggle_failure_falls_back envC2 FS.empty Exc.apiException rfl rfl
  exact ⟨h1, h2, h3 rfl⟩

/-- C6: a `KeyboardInterrupt` during either download is fatal: the
adapter's dedicated `except KeyboardInterrupt` clause calls
`sys.exit(1)` — a `SystemExit`, not the recoverable `RuntimeError` — so
the run ends with exit code 1 immediately, and after an interrupted
Kaggle download the Hugging Face source is never attempted. -/
theorem c6_interrupt_fatal (env : Env) (fs : FS) :
    (env.kaggleOutcome = some Exc.keyboardInterrupt →
      (download_from_kaggle env fs).2.2 = some (Exc.systemExit 1) ∧
      (main env fs).2.2 = some (Exc.systemExit 1) ∧
      Event.hfAttempt ∉ (main env fs).2.1) ∧
    (env.hfOutcome = some Exc.keyboardInterrupt →
      (download_from_huggingface env fs).2.2 = some (Exc.systemExit 1) ∧
      (mainSecondTry env fs).2.2 = some (Exc.systemExit 1)) := by
  constructor
  · intro hk
    have h1 : (download_from_kaggle env fs).2.2 = some (Exc.systemExit 1) := by
      rw [download_from_kaggle_exc]
      simp [kaggleStageExc, hk, kaggleHandler]
    refine ⟨h1, ?_, ?_⟩
    · simp [main, h1]
    · simp [main, h1, download_from_kaggle_events]
  · intro hh
    have h1 : (download_from_huggingface env fs).2.2 = some (Exc.systemExit 1) := by
      rw [download_from_huggingface_exc]
      simp [hfStageExc, hh, hfHandler]
    exact ⟨h1, by simp [mainSecondTry, h1]⟩

/-- Environment for the `c6` witness: both clients are interrupted. -/
def envC6 : Env :=
  { envBase with
    kaggleOutcome := some Exc.keyboardInterrupt
    hfOutcome := some Exc.keyboardInterrupt }

/-- Witness for `c6_interrupt_fatal`: an interrupted Kaggle download
exits 1 without attempting Hugging Face, and an interrupted Hugging
Face download propagates `sys.exit(1)`. -/
theorem c6_interrupt_fatal_witness :
    (main envC6 FS.empty).2.2 = some (Exc.systemExit 1) ∧
    Event.hfAttempt ∉ (main envC6 FS.empty).2.1 ∧
    (download_from_huggingface envC6 FS.empty).2.2 = some (Exc.systemExit 1) := by
  obtain ⟨ha, hb⟩ := c6_interrupt_fatal envC6 FS.empty
  obtain ⟨h1, h2, h3⟩ := ha rfl
  obtain ⟨h4, h5⟩ := hb rfl
  exact ⟨h2, h3, h4⟩

/-- C7: the index-file loop processes the URL list in order and stops at
the first failure: a non-2xx status (`HTTPError` from
`raise_for_status`) or a `ConnectionError` on URL `u` is re-raised as
the recoverable `RuntimeError` at once, the attempt log is exactly the
URLs up to and including `u`, and no later URL is attempted. -/
theorem c7_index_stop_on_first_failure (env : Env) (round : Nat) (fs : FS)
    (u : Nat) (e : Exc) (hu : u < 3)
    (he : e = Exc.httpError ∨ e = Exc.connectionError)
    (hfail : env.indexOutcome round u = some e)
    (hbefore : ∀ v, v < u → env.indexOutcome round v = none) :
    (download_index_files env round fs).2.2 = some Exc.runtimeError ∧
    (download_index_files env round fs).2.1 =
      (List.range (u + 1)).map Event.indexAttempt ∧
    ∀ w, u < w → Event.indexAttempt w ∉ (download_index_files env round fs).2.1 := by
  have hhandler : indexHandler e = Exc.runtimeError := by
    rcases he with h | h <;> subst h <;> rfl
  interval_cases u
  · refine ⟨by simp [download_index_files, index_loop, hfail, hhandler], by
      simp [download_index_files, index_loop, hfail, List.range_succ],
      fun w hw => by
        simp [download_index_files, index_loop, hfail]
        omega⟩
  · have h0 : env.indexOutcome round 0 = none := hbefore 0 (by omega)
    refine ⟨by simp [download_index_files, index_loop, h0, hfail, hhandler], by
      simp [download_index_files, index_loop, h0, hfail, List.range_succ],
      fun w hw => by
        simp [download_index_files, index_loop, h0, hfail]
        omega⟩
  · have h0 : env.indexOutcome round 0 = none := hbefore 0 (by omega)
    have h1 : env.indexOutcome round 1 = none := hbefore 1 (by omega)
    refine ⟨by simp [download_index_files, index_loop, h0, h1, hfail, hhandler], by
      simp [download_index_files, index_loop, h0, h1, hfail, List.range_succ],
      fun w hw => by
        simp [download_index_files, index_loop, h0, h1, hfail]
        omega⟩

/-- Environment for the `c7` witness: the first index URL returns a
non-2xx status, the others would succeed. -/
def envC7 : Env :=
  { envBase with
    indexOutcome := fun _ u => if u = 0 then some Exc.httpError else none }

/-- Witness for `c7_index_stop_on_first_failure`: with URL 0 failing,
the batch raises `RuntimeError` and URL 1 is never attempted. -/
theorem c7_index_stop_on_first_failure_witness :
    (download_index_files envC7 0 FS.empty).2.2 = some Exc.runtimeError ∧
    Event.indexAttempt 1 ∉ (download_index_files envC7 0 FS.empty).2.1 := by
  obtain ⟨h1, h2, h3⟩ :=
    c7_index_stop_on_first_failure envC7 0 FS.empty 0 Exc.httpError
      (by omega) (Or.inl rfl) rfl (fun v hv => absurd hv (by omega))
  exact ⟨h1, h3 1 (by omega)⟩

/-- C8: the write of `<destination>/<basename(url)>` happens only after
`raise_for_status` passes, so a failed GET for URL `u` leaves that
URL's file slot (present or absent, and its content) exactly as it
was. -/
theorem c8_failed_get_leaves_file_unchanged (env : Env) (round : Nat)
    (fs : FS) (u : Nat) (e : Exc) (hu : u < 3)
    (hfail : env.indexOutcome round u = some e) :
    getIdx u ((download_index_files env round fs).1) = getIdx u fs := by
  interval_cases u
  · simp [download_index_files, index_loop, hfail]
  · rcases h0 : env.indexOutcome round 0 with _ | e0 <;>
      simp [download_index_files, index_loop, h0, hfail, setIdx, getIdx]
  · rcases h0 : env.indexOutcome round 0 with _ | e0 <;>
      rcases h1 : env.indexOutcome round 1 with _ | e1 <;>
        simp [download_index_files, index_loop, h0, h1, hfail, setIdx, getIdx]

/-- Environment for the `c8` witness: the GET for URL 2 fails with a
connection error. -/
def envC8 : Env :=
  { envBase with
    indexOutcome := fun _ u => if u = 2 then some Exc.connectionError else none }

/-- Witness for `c8_failed_get_leaves_file_unchanged`: a pre-existing
`test_filtered.txt` with body `7` survives the failed GET untouched. -/
theorem c8_failed_get_leaves_file_unchanged_witness :
    getIdx 2 ((download_index_files envC8 0 { FS.empty with idxTest := some 7 }).1) =
      getIdx 2 { FS.empty with idxTest := some 7 } :=
  c8_failed_get_leaves_file_unchanged envC8 0
    { FS.empty with idxTest := some 7 } 2 Exc.connectionError (by omega) rfl

/-- The index-file loop only ever logs `indexAttempt` events, so the
Hugging Face attempt event never comes from it. -/
theorem hf_not_in_index_events (env : Env) (round : Nat) (urls : List Nat)
    (fs : FS) : Event.hfAttempt ∉ (index_loop env round urls fs).2.1 := by
  induction urls generalizing fs with
  | nil => simp [index_loop]
  | cons u rest ih =>
    cases h : env.indexOutcome round u
    · simpa [index_loop, h] using ih (setIdx u (env.indexBody round u) fs)
    · simp [index_loop, h]

/-- Closed form of `main` when the Kaggle stage succeeds and the first
index round succeeds: the run ends in `sys.exit(0)`. -/
theorem main_kaggle_ok_index_ok (env : Env) (fs : FS)
    (hk : env.kaggleOutcome = none) (hi : indexExc env 0 = none) :
    main env fs =
      ((download_index_files env 0 (download_from_kaggle env fs).1).1,
       (download_from_kaggle env fs).2.1 ++
         (download_index_files env 0 (download_from_kaggle env fs).1).2.1,
       some (Exc.systemExit 0)) := by
  have hdk : (download_from_kaggle env fs).2.2 = none := by
    rw [download_from_kaggle_exc]; simp [kaggleStageExc, hk]
  have hix : (download_index_files env 0 (download_from_kaggle env fs).1).2.2 =
      none := by rw [download_index_files_exc, hi]
  simp [main, hdk, hix]

/-- Closed form of `main` when the Kaggle stage succeeds but the first
index round fails with the recoverable `RuntimeError`: control falls
through to the second `try` block. -/
theorem main_kaggle_ok_index_fail (env : Env) (fs : FS)
    (hk : env.kaggleOutcome = none)
    (hi : indexExc env 0 = some Exc.runtimeError) :
    main env fs =
      ((mainSecondTry env
          (download_index_files env 0 (download_from_kaggle env fs).1).1).1,
       (download_from_kaggle env fs).2.1 ++
         (download_index_files env 0 (download_from_kaggle env fs).1).2.1 ++
         (mainSecondTry env
           (download_index_files env 0 (download_from_kaggle env fs).1).1).2.1,
       (mainSecondTry env
         (download_index_files env 0 (download_from_kaggle env fs).1).1).2.2) := by
  have hdk : (download_from_kaggle env fs).2.2 = none := by
    rw [download_from_kaggle_exc]; simp [kaggleStageExc, hk]
  have hix : (download_index_files env 0 (download_from_kaggle env fs).1).2.2 =
      some Exc.runtimeError := by rw [download_index_files_exc, hi]
  simp [main, hdk, hix]

/-- Environment refuting claim C1 as stated: the Kaggle download
succeeds, the first round of index GETs fails with a transient
connection error, and everything succeeds afterwards. -/
def envC1 : Env :=
  { envBase with
    indexOutcome := fun r _ => if r = 0 then some Exc.connectionError else none }

/-- C1 counterexample: after a successful Kaggle fetch, an index-fetch
failure does NOT lead to exit code 1 without an attempt of Source B —
in `envC1` the run attempts Hugging Face and exits 0, because the
`download_index_files` call at line 153 sits inside the first
`try … except RuntimeError` block of `main`. -/
theorem c1_counterexample :
    (main envC1 FS.empty).2.2 = some (Exc.systemExit 0) ∧
    Event.hfAttempt ∈ (main envC1 FS.empty).2.1 := by
  decide

/-- Environment where only the Kaggle fetch fails: Source A raises
`ApiException`, the Source B pipeline and all index GETs succeed
(spec Example scenario 2). -/
def envC1b : Env := { envBase with kaggleOutcome := some Exc.apiException }

/-- C1 amended: the state machine the code implements.  After a
successful Kaggle fetch the index files are fetched; if they succeed
the run exits 0 without attempting Source B.  A recoverable index-fetch
failure after a successful Kaggle fetch triggers the Source B attempt
(not exit 1).  Whichever way the Source B attempt is reached — a
recoverable Source A fetch failure, or the index failure after a
successful Source A fetch — the run then exits 0 when the Source B
pipeline and its index round succeed, and 1 when the Source B stage or
the index fetch after a successful Source B fetch fails recoverably;
in particular, when both sources fail recoverably the run exits 1. -/
theorem c1_orchestrator_state_machine (env : Env) (fs : FS) :
    (env.kaggleOutcome = none → indexExc env 0 = none →
      (main env fs).2.2 = some (Exc.systemExit 0) ∧
      Event.hfAttempt ∉ (main env fs).2.1) ∧
    (env.kaggleOutcome = none → indexExc env 0 = some Exc.runtimeError →
      Event.hfAttempt ∈ (main env fs).2.1) ∧
    (env.kaggleOutcome = none → indexExc env 0 = some Exc.runtimeError →
      hfStageExc env = none → indexExc env 1 = none →
      (main env fs).2.2 = some (Exc.systemExit 0)) ∧
    (env.kaggleOutcome = none → indexExc env 0 = some Exc.runtimeError →
      hfStageExc env = some Exc.runtimeError →
      (main env fs).2.2 = some (Exc.systemExit 1)) ∧
    (env.kaggleOutcome = none → indexExc env 0 = some Exc.runtimeError →
      hfStageExc env = none → indexExc env 1 = some Exc.runtimeError →
      (main env fs).2.2 = some (Exc.systemExit 1)) ∧
    (kaggleStageExc env = some Exc.runtimeError →
      Event.hfAttempt ∈ (main env fs).2.1) ∧
    (kaggleStageExc env = some Exc.runtimeError →
      hfStageExc env = none → indexExc env 1 = none →
      (main env fs).2.2 = some (Exc.systemExit 0)) ∧
    (kaggleStageExc env = some Exc.runtimeError →
      hfStageExc env = none → indexExc env 1 = some Exc.runtimeError →
      (main env fs).2.2 = some (Exc.systemExit 1)) ∧
    (kaggleStageExc env = some Exc.runtimeError →
      hfStageExc env = some Exc.runtimeError →
      (main env fs).2.2 = some (Exc.systemExit 1)) := by
  refine ⟨?_, ?_, ?_, ?_, ?_, ?_, ?_, ?_, ?_⟩
  · intro hk hi
    rw [main_kaggle_ok_index_ok env fs hk hi]
    refine ⟨rfl, ?_⟩
    rw [download_from_kaggle_events]
    simp [download_index_files, hf_not_in_index_events]
  · intro hk hi
    rw [main_kaggle_ok_index_fail env fs hk hi]
    exact List.mem_append.mpr (Or.inr (mainSecondTry_events_mem env _))
  · intro hk hi hhf hi1
    rw [main_kaggle_ok_index_fail env fs hk hi]
    exact mainSecondTry_exit0 env _ hhf hi1
  · intro hk hi hhf
    rw [main_kaggle_ok_index_fail env fs hk hi]
    exact mainSecondTry_exit1 env _ hhf
  · intro hk hi hhf hi1
    rw [main_kaggle_ok_index_fail env fs hk hi]
    exact mainSecondTry_exit1_index env _ hhf hi1
  · intro hk
    rw [main_kaggle_fail_second env fs hk]
    exact List.mem_append.mpr (Or.inr (mainSecondTry_events_mem env _))
  · intro hk hhf hi1
    rw [main_kaggle_fail_second env fs hk]
    exact mainSecondTry_exit0 env _ hhf hi1
  · intro hk hhf hi1
    rw [main_kaggle_fail_second env fs hk]
    exact mainSecondTry_exit1_index env _ hhf hi1
  · intro hk hhf
    rw [main_kaggle_fail_second env fs hk]
    exact mainSecondTry_exit1 env _ hhf

/-- Witness for `c1_orchestrator_state_machine`, exercising both routes
to Source B and both terminal states: full success via Kaggle (exit 0,
no Source B attempt), the fallback rescue of `envC1` (exit 0 via Source
B after a round-0 index failure), the Source-A-fetch-failure route of
`envC1b` (Source B attempted, exit 0 via its full pipeline), and double
failure in `envC2` (exit 1). -/
theorem c1_orchestrator_state_machine_witness :
    ((main envBase FS.empty).2.2 = some (Exc.systemExit 0) ∧
      Event.hfAttempt ∉ (main envBase FS.empty).2.1) ∧
    (main envC1 FS.empty).2.2 = some (Exc.systemExit 0) ∧
    (Event.hfAttempt ∈ (main envC1b FS.empty).2.1 ∧
      (main envC1b FS.empty).2.2 = some (Exc.systemExit 0)) ∧
    (main envC2 FS.empty).2.2 = some (Exc.systemExit 1) := by
  refine ⟨(c1_orchestrator_state_machine envBase FS.empty).1 rfl rfl,
    ?_, ⟨?_, ?_⟩, ?_⟩
  · exact (c1_orchestrator_state_machine envC1 FS.empty).2.2.1 rfl rfl rfl rfl
  · exact (c1_orchestrator_state_machine envC1b FS.empty).2.2.2.2.2.1 rfl
  · exact (c1_orchestrator_state_machine envC1b FS.empty).2.2.2.2.2.2.1
      rfl rfl rfl
  · exact (c1_orchestrator_state_machine envC2 FS.empty).2.2.2.2.2.2.2.2
      rfl rfl

/-! Classification of outcomes when no collaborator invokes `sys.exit`
itself (library failures are exceptions; only this script calls
`sys.exit`). -/

/-- The outcome is never a `SystemExit`. -/
def NoExit (o : Option Exc) : Prop := ∀ n, o ≠ some (Exc.systemExit n)

/-- Every collaborator outcome in the environment is an exception,
never a `SystemExit`. -/
def EnvNoExit (env : Env) : Prop :=
  NoExit env.kaggleOutcome ∧ NoExit env.hfOutcome ∧
    ∀ r u, NoExit (env.indexOutcome r u)

theorem kaggleHandler_noexit (e : Exc) (h : ∀ n, e ≠ Exc.systemExit n) :
    kaggleHandler e = Exc.runtimeError ∨ kaggleHandler e = Exc.systemExit 1 := by
  cases e <;> first
    | (left; rfl)
    | (right; rfl)
    | exact absurd rfl (h _)

theorem hfHandler_noexit (e : Exc) (h : ∀ n, e ≠ Exc.systemExit n) :
    hfHandler e = Exc.runtimeError ∨ hfHandler e = Exc.systemExit 1 := by
  cases e <;> first
    | (left; rfl)
    | (right; rfl)
    | exact absurd rfl (h _)

theorem indexHandler_noexit (e : Exc) (h : ∀ n, e ≠ Exc.systemExit n) :
    indexHandler e = Exc.runtimeError ∨ indexHandler e = Exc.systemExit 1 := by
  cases e <;> first
    | (left; rfl)
    | (right; rfl)
    | exact absurd rfl (h _)

theorem indexExcAux_noexit (env : Env) (round : Nat) (urls : List Nat)
    (h : ∀ u, NoExit (env.indexOutcome round u)) :
    indexExcAux env round urls = none ∨
    indexExcAux env round urls = some Exc.runtimeError ∨
    indexExcAux env round urls = some (Exc.systemExit 1) := by
  induction urls with
  | nil => left; rfl
  | cons u rest ih =>
    rcases hu : env.indexOutcome round u with _ | e
    · simpa [indexExcAux, hu] using ih
    · have he : ∀ n, e ≠ Exc.systemExit n := by
        intro n hn
        exact h u n (by rw [hu, hn])
      rcases indexHandler_noexit e he with h1 | h1
      · right; left; simp [indexExcAux, hu, h1]
      · right; right; simp [indexExcAux, hu, h1]

theorem indexExc_noexit (env : Env) (round : Nat)
    (h : ∀ r u, NoExit (env.indexOutcome r u)) :
    indexExc env round = none ∨ indexExc env round = some Exc.runtimeError ∨
    indexExc env round = some (Exc.systemExit 1) :=
  indexExcAux_noexit env round [0, 1, 2] (fun u => h round u)

theorem kaggleStageExc_noexit (env : Env) (h : NoExit env.kaggleOutcome) :
    kaggleStageExc env = none ∨ kaggleStageExc env = some Exc.runtimeError ∨
    kaggleStageExc env = some (Exc.systemExit 1) := by
  rcases hk : env.kaggleOutcome with _ | e
  · left; simp [kaggleStageExc, hk]
  · have he : ∀ n, e ≠ Exc.systemExit n := fun n hn => h n (by rw [hk, hn])
    rcases kaggleHandler_noexit e he with h1 | h1
    · right; left; simp [kaggleStageExc, hk, h1]
    · right; right; simp [kaggleStageExc, hk, h1]

theorem hfStageExc_noexit (env : Env) (h : NoExit env.hfOutcome) :
    hfStageExc env = none ∨ hfStageExc env = some Exc.runtimeError ∨
    hfStageExc env = some (Exc.systemExit 1) := by
  rcases hk : env.hfOutcome with _ | e
  · cases hv : env.tarValid
    · right; left; simp [hfStageExc, hk, hv]
    · left; simp [hfStageExc, hk, hv]
  · have he : ∀ n, e ≠ Exc.systemExit n := fun n hn => h n (by rw [hk, hn])
    rcases hfHandler_noexit e he with h1 | h1
    · right; left; simp [hfStageExc, hk, h1]
    · right; right; simp [hfStageExc, hk, h1]

theorem hfStageExc_none (env : Env) (h : hfStageExc env = none) :
    env.hfOutcome = none ∧ env.tarValid = true := by
  rcases ho : env.hfOutcome with _ | e
  · cases hv : env.tarValid
    · simp [hfStageExc, ho, hv] at h
    · exact ⟨rfl, rfl⟩
  · simp [hfStageExc, ho] at h

/-- When the Hugging Face stage propagates a `sys.exit(1)`, the second
`try` block re-propagates it unchanged. -/
theorem mainSecondTry_exc_propagates (env : Env) (fs : FS)
    (h : hfStageExc env = some (Exc.systemExit 1)) :
    (mainSecondTry env fs).2.2 = some (Exc.systemExit 1) := by
  have hx := download_from_huggingface_exc env fs
  rw [h] at hx
  simp [mainSecondTry, hx]

/-! Filesystem effects of the index-file loop. -/

theorem setIdx_preserves (u : Nat) (b : Nat) (fs : FS) :
    (setIdx u b fs).genres = fs.genres ∧
    (setIdx u b fs).dataDir = fs.dataDir ∧
    (setIdx u b fs).dataGenresOriginal = fs.dataGenresOriginal ∧
    (setIdx u b fs).nestedArchive = fs.nestedArchive ∧
    (setIdx u b fs).rootArchive = fs.rootArchive := by
  simp only [setIdx]
  split_ifs <;> simp

theorem index_loop_preserves (env : Env) (round : Nat) (urls : List Nat)
    (fs : FS) :
    ((index_loop env round urls fs).1).genres = fs.genres ∧
    ((index_loop env round urls fs).1).dataDir = fs.dataDir ∧
    ((index_loop env round urls fs).1).dataGenresOriginal =
      fs.dataGenresOriginal ∧
    ((index_loop env round urls fs).1).nestedArchive = fs.nestedArchive ∧
    ((index_loop env round urls fs).1).rootArchive = fs.rootArchive := by
  induction urls generalizing fs with
  | nil => simp [index_loop]
  | cons u rest ih =>
    cases h : env.indexOutcome round u
    · have h1 := ih (setIdx u (env.indexBody round u) fs)
      have h2 := setIdx_preserves u (env.indexBody round u) fs
      simp only [index_loop, h]
      exact ⟨h1.1.trans h2.1, h1.2.1.trans h2.2.1, h1.2.2.1.trans h2.2.2.1,
        h1.2.2.2.1.trans h2.2.2.2.1, h1.2.2.2.2.trans h2.2.2.2.2⟩
    · simp [index_loop, h]

/-- `download_index_files` touches only the three index-file slots. -/
theorem download_index_files_preserves (env : Env) (round : Nat) (fs : FS) :
    ((download_index_files env round fs).1).genres = fs.genres ∧
    ((download_index_files env round fs).1).dataDir = fs.dataDir ∧
    ((download_index_files env round fs).1).dataGenresOriginal =
      fs.dataGenresOriginal ∧
    ((download_index_files env round fs).1).nestedArchive = fs.nestedArchive ∧
    ((download_index_files env round fs).1).rootArchive = fs.rootArchive :=
  index_loop_preserves env round [0, 1, 2] fs

/-- A fully successful index round writes all three index files. -/
theorem index_files_none_sets (env : Env) (round : Nat) (fs : FS)
    (h : indexExc env round = none) :
    ((download_index_files env round fs).1).idxTrain.isSome = true ∧
    ((download_index_files env round fs).1).idxValid.isSome = true ∧
    ((download_index_files env round fs).1).idxTest.isSome = true := by
  rcases h0 : env.indexOutcome round 0 with _ | e0
  · rcases h1 : env.indexOutcome round 1 with _ | e1
    · rcases h2 : env.indexOutcome round 2 with _ | e2
      · simp [download_index_files, index_loop, h0, h1, h2, setIdx]
      · simp [indexExc, indexExcAux, h0, h1, h2] at h
    · simp [indexExc, indexExcAux, h0, h1] at h
  · simp [indexExc, indexExcAux, h0] at h

/-- The directory state after a successful Hugging Face fetch plus
archive extraction: the nested archive gone, the root archive deleted,
and a `genres` tree extracted. -/
def hfCleanFs (fs : FS) : FS :=
  { fs with nestedArchive := false, rootArchive := false, genres := true }

/-- When the second `try` block ends in `sys.exit(0)` (and no
collaborator calls `sys.exit` itself, and the archive holds the
`genres` tree), its resulting directory has the canonical layout:
`genres/` present, no archive left at either location, the three index
files written, and the `Data`-related entries untouched. -/
theorem mainSecondTry_exit0_fields (env : Env) (fs : FS)
    (hg : env.tarExtractsGenres = true)
    (hnh : NoExit env.hfOutcome)
    (hni : ∀ r u, NoExit (env.indexOutcome r u))
    (h0 : (mainSecondTry env fs).2.2 = some (Exc.systemExit 0)) :
    ((mainSecondTry env fs).1).genres = true ∧
    ((mainSecondTry env fs).1).dataDir = fs.dataDir ∧
    ((mainSecondTry env fs).1).dataGenresOriginal = fs.dataGenresOriginal ∧
    ((mainSecondTry env fs).1).nestedArchive = false ∧
    ((mainSecondTry env fs).1).rootArchive = false ∧
    ((mainSecondTry env fs).1).idxTrain.isSome = true ∧
    ((mainSecondTry env fs).1).idxValid.isSome = true ∧
    ((mainSecondTry env fs).1).idxTest.isSome = true := by
  rcases hfStageExc_noexit env hnh with hh | hh | hh
  · obtain ⟨ho, hv⟩ := hfStageExc_none env hh
    have hr1 : download_from_huggingface env fs =
        (hfCleanFs fs, [Event.hfAttempt], none) := by
      rw [download_from_huggingface_eq]
      simp [ho, hv, hg, hfCleanFs]
    rcases indexExc_noexit env 1 hni with hi | hi | hi
    · have hi2 : (download_index_files env 1 (hfCleanFs fs)).2.2 = none := by
        rw [download_index_files_exc, hi]
      have hms : mainSecondTry env fs =
          ((download_index_files env 1 (hfCleanFs fs)).1,
           Event.hfAttempt :: (download_index_files env 1 (hfCleanFs fs)).2.1,
           some (Exc.systemExit 0)) := by
        simp [mainSecondTry, hr1, hi2]
      have hpres := download_index_files_preserves env 1 (hfCleanFs fs)
      have hsets := index_files_none_sets env 1 (hfCleanFs fs) hi
      rw [hms]
      exact ⟨hpres.1.trans rfl, hpres.2.1.trans rfl, hpres.2.2.1.trans rfl,
        hpres.2.2.2.1.trans rfl, hpres.2.2.2.2.trans rfl,
        hsets.1, hsets.2.1, hsets.2.2⟩
    · have := mainSecondTry_exit1_index env fs hh hi
      rw [this] at h0
      exact absurd h0 (by decide)
    · have hi2 : (download_index_files env 1 (hfCleanFs fs)).2.2 =
          some (Exc.systemExit 1) := by
        rw [download_index_files_exc, hi]
      have hms : (mainSecondTry env fs).2.2 = some (Exc.systemExit 1) := by
        simp [mainSecondTry, hr1, hi2]
      rw [hms] at h0
      exact absurd h0 (by decide)
  · have := mainSecondTry_exit1 env fs hh
    rw [this] at h0
    exact absurd h0 (by decide)
  · have := mainSecondTry_exc_propagates env fs hh
    rw [this] at h0
    exact absurd h0 (by decide)

/-- The spec's success invariant over the modelled directory: a
`genres` subdirectory, the three index files, no intermediate `Data`
directory (nor a stray `Data/genres_original`), and no archive file at
either location. -/
def finalLayoutOk (fs : FS) : Bool :=
  fs.genres && !fs.dataDir && !fs.dataGenresOriginal && !fs.nestedArchive &&
    !fs.rootArchive && fs.idxTrain.isSome && fs.idxValid.isSome &&
    fs.idxTest.isSome

/-- C3: starting from a fresh destination, whenever a run terminates
with exit code 0 — via either source — the resulting directory
satisfies the invariant: `genres/` exists, the three index files exist,
and no `Data` directory or archive file is left behind.  The
environment hypotheses say that the collaborators fail only by raising
exceptions, that a successful unzipped Kaggle download deposits
`Data/genres_original`, and that the Hugging Face archive extracts to a
`genres` tree. -/
theorem c3_success_layout (env : Env)
    (hne : EnvNoExit env)
    (hdep : env.kaggleDepositsTree = true)
    (hg : env.tarExtractsGenres = true)
    (hexit : (main env FS.empty).2.2 = some (Exc.systemExit 0)) :
    finalLayoutOk ((main env FS.empty).1) = true := by
  obtain ⟨hkn, hhn, hin⟩ := hne
  rcases kaggleStageExc_noexit env hkn with hks | hks | hks
  · have hk : env.kaggleOutcome = none := by
      rcases ho : env.kaggleOutcome with _ | e
      · rfl
      · simp [kaggleStageExc, ho] at hks
    have hfs1 : (download_from_kaggle env FS.empty).1 =
        { FS.empty with genres := true } := by
      simp [download_from_kaggle, hk, hdep, move_and_cleanup_kaggle_download,
        FS.empty]
    rcases indexExc_noexit env 0 hin with hi | hi | hi
    · rw [main_kaggle_ok_index_ok env FS.empty hk hi]
      rw [hfs1]
      have hpres := download_index_files_preserves env 0
        { FS.empty with genres := true }
      have hsets := index_files_none_sets env 0
        { FS.empty with genres := true } hi
      simp only [finalLayoutOk, Bool.and_eq_true]
      exact ⟨⟨⟨⟨⟨⟨⟨hpres.1.trans rfl, by rw [hpres.2.1]; rfl⟩, by rw [hpres.2.2.1]; rfl⟩,
        by rw [hpres.2.2.2.1]; rfl⟩, by rw [hpres.2.2.2.2]; rfl⟩, hsets.1⟩,
        hsets.2.1⟩, hsets.2.2⟩
    · rw [main_kaggle_ok_index_fail env FS.empty hk hi] at hexit ⊢
      rw [hfs1] at hexit ⊢
      have hfields := mainSecondTry_exit0_fields env
        (download_index_files env 0 { FS.empty with genres := true }).1
        hg hhn hin hexit
      have hpres := download_index_files_preserves env 0
        { FS.empty with genres := true }
      simp only [finalLayoutOk, Bool.and_eq_true]
      exact ⟨⟨⟨⟨⟨⟨⟨hfields.1, by rw [hfields.2.1, hpres.2.1]; rfl⟩,
        by rw [hfields.2.2.1, hpres.2.2.1]; rfl⟩, by rw [hfields.2.2.2.1]; rfl⟩,
        by rw [hfields.2.2.2.2.1]; rfl⟩, hfields.2.2.2.2.2.1⟩,
        hfields.2.2.2.2.2.2.1⟩, hfields.2.2.2.2.2.2.2⟩
    · have hdk : (download_from_kaggle env FS.empty).2.2 = none := by
        rw [download_from_kaggle_exc]
        simp [kaggleStageExc, hk]
      have hix : (download_index_files env 0
          (download_from_kaggle env FS.empty).1).2.2 =
          some (Exc.systemExit 1) := by
        rw [download_index_files_exc, hi]
      simp only [main, hdk, hix] at hexit
      exact absurd hexit (by decide)
  · have hdk1 : (download_from_kaggle env FS.empty).1 = FS.empty := by
      rcases ho : env.kaggleOutcome with _ | e
      · simp [kaggleStageExc, ho] at hks
      · simp [download_from_kaggle, ho]
    rw [main_kaggle_fail_second env FS.empty hks] at hexit ⊢
    rw [hdk1] at hexit ⊢
    have hfields := mainSecondTry_exit0_fields env FS.empty hg hhn hin hexit
    simp only [finalLayoutOk, Bool.and_eq_true]
    exact ⟨⟨⟨⟨⟨⟨⟨hfields.1, by rw [hfields.2.1]; rfl⟩, by rw [hfields.2.2.1]; rfl⟩,
      by rw [hfields.2.2.2.1]; rfl⟩, by rw [hfields.2.2.2.2.1]; rfl⟩,
      hfields.2.2.2.2.2.1⟩, hfields.2.2.2.2.2.2.1⟩, hfields.2.2.2.2.2.2.2⟩
  · have hdk : (download_from_kaggle env FS.empty).2.2 =
        some (Exc.systemExit 1) := by
      rw [download_from_kaggle_exc, hks]
    simp only [main, hdk] at hexit
    exact absurd hexit (by decide)

/-- Witness for `c3_success_layout`: the fully successful environment
yields exit 0 with the canonical final layout. -/
theorem c3_success_layout_witness :
    EnvNoExit envBase ∧ finalLayoutOk ((main envBase FS.empty).1) = true := by
  have hne : EnvNoExit envBase :=
    ⟨fun n h => by simp [envBase] at h, fun n h => by simp [envBase] at h,
     fun r u n h => by simp [envBase] at h⟩
  exact ⟨hne, c3_success_layout envBase hne rfl rfl (by decide)⟩

end GetData
